import Mathlib

/-!
Verification of the libbacktrace symbolization core
(`src/symbolize/libbacktrace.rs` of backtrace-rs).

The Rust module bridges the C library libbacktrace (an external black box,
specified only at its interface) into a closure-based API.  We give a
shallow embedding:

* C strings: a non-null `const char *` is modelled by the list of bytes
  sitting at the pointer (`CStr`); `strlen` walks to the first NUL byte.
  A possibly-null pointer is `CPtr := Option CStr`, with `none` for NULL.
* The `Symbol` enum and its accessors are translated line by line from the
  source.  `filename_bytes` calls `strlen` on the `filename` field with no
  null check; a null pointer there would be a read through NULL (undefined
  behaviour), which the model makes explicit by an outer `Option`: the
  result is `none` exactly when the source would dereference NULL, and
  `some v` when the source is defined and returns `v`.
* The observable behaviour of a `resolve` call is an `Event` trace:
  backend-primitive invocations (`backtrace_create_state`,
  `backtrace_pcinfo`, `backtrace_syminfo`) and user-closure invocations.
  The user closure is opaque, so invoking it is recorded as an event
  carrying the `Symbol` it receives; in the trace model the closure is
  assumed to return normally (the panicking case is handled separately by
  the `Bomb` guard model `callG`).
* The backend itself is not part of the repository.  Following the spec's
  interface section, a `Backend` is described by the result of
  `backtrace_create_state` (a pointer value, `0` = NULL), by the record a
  `backtrace_pcinfo` call fires the line callback with (at most one per
  call, if the address is found), by the status it returns when the
  callback is not fired, and by the record `backtrace_syminfo` fires the
  symbol callback with, if any.
* The mutable `static STATE` of `init_state` is passed explicitly: each
  call takes the current value of `STATE` and returns the new one,
  exactly as the externally-synchronized source reads and writes it.
-/

namespace Backtrace

/-- Bytes found in memory at a non-null C string pointer.  The string
proper ends at the first NUL (byte `0`); bytes past it model whatever
else sits in memory there. -/
abbrev CStr := List Nat

/-- A possibly-null `const char *`: `none` is the NULL pointer. -/
abbrev CPtr := Option CStr

/-- `libc::strlen`: number of bytes before the first NUL. -/
def strlen (s : CStr) : Nat := (s.takeWhile (fun b => b ≠ 0)).length

/-- `slice::from_raw_parts(ptr, strlen(ptr))`: the bytes of the C string
up to (excluding) the first NUL. -/
def cbytes (s : CStr) : List Nat := s.takeWhile (fun b => b ≠ 0)

/-- The `Symbol` enum of `symbolize/libbacktrace.rs`:

* `Syminfo`: a symbol-table hit, `pc: uintptr_t`, `symname: *const c_char`;
* `Pcinfo`: a line-table hit, `pc: uintptr_t`, `filename: *const c_char`,
  `lineno: c_int`, `function: *const c_char`.

(The public `super::Symbol` is a transparent wrapper around this enum;
all accessors delegate to it, so the model identifies the two.) -/
inductive Symbol where
  | Syminfo (pc : Nat) (symname : CPtr)
  | Pcinfo (pc : Nat) (filename : CPtr) (lineno : Int) (function : CPtr)
deriving DecidableEq, Repr

/-- `Symbol::name`: pick `symname` (Syminfo) or `function` (Pcinfo); NULL
gives `None`, otherwise the `strlen`-delimited bytes (the `SymbolName`
wrapper of the source is external to this module and kept as the raw
byte slice). -/
def Symbol.name (sym : Symbol) : Option (List Nat) :=
  let ptr := match sym with
    | Symbol.Syminfo _ symname => symname
    | Symbol.Pcinfo _ _ _ function => function
  match ptr with
  | none => none
  | some s => some (cbytes s)

/-- The `pc` field common to both variants (used to state properties of
`Symbol.addr`). -/
def Symbol.pcOf : Symbol → Nat
  | Symbol.Syminfo pc _ => pc
  | Symbol.Pcinfo pc _ _ _ => pc

/-- `Symbol::addr`: `None` when `pc == 0`, otherwise `Some(pc as *mut _)`
(the returned pointer is modelled by its address value). -/
def Symbol.addr (sym : Symbol) : Option Nat :=
  let pc := match sym with
    | Symbol.Syminfo pc _ => pc
    | Symbol.Pcinfo pc _ _ _ => pc
  if pc = 0 then none else some pc

/-- `Symbol::filename_bytes`.  The source returns `None` for `Syminfo`
and, for `Pcinfo`, unconditionally calls `strlen(filename)` — with no
null check.  The outer `Option` records definedness: `none` means the
source would read through a NULL pointer (undefined behaviour); `some v`
means the source is defined and returns `v`. -/
def Symbol.filename_bytes : Symbol → Option (Option (List Nat))
  | Symbol.Syminfo _ _ => some none
  | Symbol.Pcinfo _ filename _ _ =>
    match filename with
    | none => none
    | some s => some (some (cbytes s))

/-- The `BytesOrWideString` wrapper from the crate's `types` module: on
this (Unix) path only the `Bytes` constructor is produced. -/
inductive BytesOrWideString where
  | Bytes (bytes : List Nat)
deriving DecidableEq, Repr

/-- `Symbol::filename_raw`: `self.filename_bytes().map(BytesOrWideString::Bytes)`.
Outer `Option` as in `filename_bytes` (definedness). -/
def Symbol.filename_raw (sym : Symbol) : Option (Option BytesOrWideString) :=
  sym.filename_bytes.map (fun o => o.map BytesOrWideString.Bytes)

/-- `Symbol::filename` (std feature):
`self.filename_bytes().map(OsStr::from_bytes).map(Path::new)`.  Both
`OsStr::from_bytes` and `Path::new` are byte-preserving views, so the
model keeps the byte list.  Outer `Option` as in `filename_bytes`. -/
def Symbol.filename (sym : Symbol) : Option (Option (List Nat)) :=
  sym.filename_bytes

/-- `Symbol::lineno`: `None` for `Syminfo`, `Some(lineno as u32)` for
`Pcinfo`.  The Rust cast `c_int as u32` reinterprets the 32-bit value:
modelled as the integer modulo 2^32. -/
def Symbol.lineno : Symbol → Option Nat
  | Symbol.Syminfo _ _ => none
  | Symbol.Pcinfo _ _ lineno _ => some ((lineno % (2 ^ 32 : Int)).toNat)

/-- Observable events of a `resolve` call, in order:

* `create_state_call` — the backend primitive `backtrace_create_state`
  was invoked (from `init_state`);
* `pcinfo_call state addr` — `backtrace_pcinfo` was invoked with state
  handle `state` and lookup address `addr`;
* `syminfo_call state addr` — `backtrace_syminfo` was invoked likewise;
* `closure_call sym` — the user closure was invoked with `sym`. -/
inductive Event where
  | create_state_call
  | pcinfo_call (state : Nat) (addr : Nat)
  | syminfo_call (state : Nat) (addr : Nat)
  | closure_call (sym : Symbol)
deriving DecidableEq, Repr

/-- `error_cb`: the no-op error sink (`// do nothing for now`).  It
produces no observable event: backend-reported errors are swallowed. -/
def error_cb : List Event := []

/-- `call(data, sym)`: unpack the closure from the opaque `data` pointer
and invoke it.  The closure is opaque user code, so the invocation is
recorded as an event; this trace-level model covers the case where the
closure returns normally (the source's `Bomb` guard around the call
exists for the panicking case, modelled separately by `callG`). -/
def call (sym : Symbol) : List Event := [Event.closure_call sym]

/-- `syminfo_cb(data, pc, symname, _symval, _symsize)`: always wraps the
raw arguments in `Symbol::Syminfo` and invokes the closure via `call`
(note: no null check on `symname` — that is done later by
`Symbol::name`). -/
def syminfo_cb (pc : Nat) (symname : CPtr) (_symval _symsize : Nat) : List Event :=
  call (Symbol.Syminfo pc symname)

/-- `pcinfo_cb(data, pc, filename, lineno, function) -> c_int`: returns
`-1` without invoking the closure when `filename` or `function` is NULL;
otherwise wraps the arguments in `Symbol::Pcinfo`, invokes the closure
via `call`, and returns `0`.  Result: the `c_int` return value paired
with the events of the invocation. -/
def pcinfo_cb (pc : Nat) (filename : CPtr) (lineno : Int) (function : CPtr) :
    Int × List Event :=
  if filename.isNone || function.isNone then
    (-1, [])
  else
    (0, call (Symbol.Pcinfo pc filename lineno function))

/-- Arguments the backend passes to the line callback when a
`backtrace_pcinfo` call fires it. -/
structure PcinfoRecord where
  pc : Nat
  filename : CPtr
  lineno : Int
  function : CPtr
deriving DecidableEq, Repr

/-- Arguments the backend passes to the symbol callback when a
`backtrace_syminfo` call fires it. -/
structure SyminfoRecord where
  pc : Nat
  symname : CPtr
  symval : Nat
  symsize : Nat
deriving DecidableEq, Repr

/-- The external libbacktrace backend, described at its interface
boundary (spec section 6): the pointer `backtrace_create_state` returns
(`0` = NULL, creation failed), the record a `backtrace_pcinfo` lookup
fires the line callback with (`none` = callback not fired: miss/internal
error), the status `backtrace_pcinfo` returns when the callback is not
fired (non-zero on a conforming backend), and the record a
`backtrace_syminfo` lookup fires the symbol callback with (`none` =
callback not fired). -/
structure Backend where
  create_state : Nat
  pcinfo_record : Nat → Option PcinfoRecord
  pcinfo_miss_status : Nat → Int
  syminfo_record : Nat → Option SyminfoRecord

/-- `bt::backtrace_pcinfo(state, addr, pcinfo_cb, error_cb, data)`: if
the backend finds the address it fires `pcinfo_cb` with the record and
returns the callback's return value; otherwise it reports through the
(no-op) error sink and returns its miss status.  Result: the returned
status paired with the events of the call. -/
def backtrace_pcinfo (b : Backend) (state addr : Nat) : Int × List Event :=
  match b.pcinfo_record addr with
  | some r =>
    let res := pcinfo_cb r.pc r.filename r.lineno r.function
    (res.1, Event.pcinfo_call state addr :: res.2)
  | none => (b.pcinfo_miss_status addr, Event.pcinfo_call state addr :: error_cb)

/-- `bt::backtrace_syminfo(state, addr, syminfo_cb, error_cb, data)`: if
the backend finds the address it fires `syminfo_cb` with the record;
otherwise it reports through the (no-op) error sink.  (Its return value
is ignored by `resolve`.) -/
def backtrace_syminfo (b : Backend) (state addr : Nat) : List Event :=
  match b.syminfo_record addr with
  | some r => Event.syminfo_call state addr :: syminfo_cb r.pc r.symname r.symval r.symsize
  | none => Event.syminfo_call state addr :: error_cb

/-- `init_state() -> *mut backtrace_state`, with the mutable
`static mut STATE` passed explicitly (handle value, `0` = NULL): if
`STATE` is non-null return it unchanged; otherwise assign
`STATE = backtrace_create_state(load_filename(), 0, error_cb, NULL)` and
return it.  Result: the new value of `STATE` paired with the events (one
`create_state_call` when the backend primitive was invoked). -/
def init_state (b : Backend) (STATE : Nat) : Nat × List Event :=
  if STATE ≠ 0 then
    (STATE, [])
  else
    (b.create_state, [Event.create_state_call])

/-- `resolve(what, cb)`: `symaddr` is the already-classified lookup
address (`what.address_or_ip()` — classification is delegated to an
external collaborator, so the model takes the address directly).  Obtain
the state via `init_state`; return if NULL.  Call `backtrace_pcinfo`; if
its return value is non-zero, fall back to `backtrace_syminfo` at the
same address.  Result: the new value of `STATE` paired with the event
trace of the call. -/
def resolve (b : Backend) (STATE : Nat) (symaddr : Nat) : Nat × List Event :=
  let s := init_state b STATE
  let state := s.1
  if state = 0 then
    (state, s.2)
  else
    let r := backtrace_pcinfo b state symaddr
    if r.1 ≠ 0 then
      (state, s.2 ++ r.2 ++ backtrace_syminfo b state symaddr)
    else
      (state, s.2 ++ r.2)

/-- A sequence of `resolve` calls in one process: the `static mut STATE`
value is threaded from call to call and the event traces concatenate. -/
def resolveSeq (b : Backend) (STATE : Nat) : List Nat → Nat × List Event
  | [] => (STATE, [])
  | a :: rest =>
    let r := resolve b STATE a
    let rest2 := resolveSeq b r.1 rest
    (rest2.1, r.2 ++ rest2.2)

/-- Is this event an invocation of `backtrace_create_state`? -/
def Event.isCreate : Event → Bool
  | Event.create_state_call => true
  | _ => false

/-- Is this event an invocation of `backtrace_pcinfo`? -/
def Event.isPcinfoCall : Event → Bool
  | Event.pcinfo_call _ _ => true
  | _ => false

/-- Is this event an invocation of `backtrace_syminfo`? -/
def Event.isSyminfoCall : Event → Bool
  | Event.syminfo_call _ _ => true
  | _ => false

/-- Is this event an invocation of the user closure? -/
def Event.isClosure : Event → Bool
  | Event.closure_call _ => true
  | _ => false

/-- Number of `backtrace_create_state` invocations in a trace. -/
def countCreate (t : List Event) : Nat := t.countP Event.isCreate

/-- Number of user-closure invocations in a trace. -/
def countClosure (t : List Event) : Nat := t.countP Event.isClosure

/-- Modelled from the spec: the crate-level `Bomb` guard type is not
part of this source file (only its use site `call` is).  Spec 4.3: "a
guard object whose sole responsibility is to abort the process
immediately if the closure fails to return normally (e.g. propagates an
exception/panic) while the guard is still armed; the guard is disarmed
only after the closure returns."  `enabled` is the armed flag. -/
structure Bomb where
  enabled : Bool
deriving DecidableEq, Repr

/-- Outcome of `call` in the guard model: either the closure returned
normally and control returns to the backend (carrying the events and the
guard's armed flag at scope exit), or the process aborted. -/
inductive CallOutcome where
  | returned (events : List Event) (guardArmedAtExit : Bool)
  | aborted
deriving DecidableEq, Repr

/-- Running the opaque user closure: `none` models a panic (the closure
fails to return normally), `some evs` a normal return producing the
invocation event. -/
def closureRun (panics : Bool) (sym : Symbol) : Option (List Event) :=
  if panics then none else some [Event.closure_call sym]

/-- `call(data, sym)` with the `Bomb` guard made explicit, following the
source line by line: construct `Bomb { enabled: true }` (arm), invoke
the closure `(*cb)(sym)`, then set `bomb.enabled = false` (disarm).  If
the closure panics, Rust unwinding drops the bomb while still armed and
its `Drop` impl (modelled from the spec, see `Bomb`) aborts the
process. -/
def callG (panics : Bool) (sym : Symbol) : CallOutcome :=
  let bomb : Bomb := { enabled := true }
  match closureRun panics sym with
  | none =>
    if bomb.enabled then CallOutcome.aborted
    else CallOutcome.returned [] bomb.enabled
  | some evs =>
    let bomb2 : Bomb := { bomb with enabled := false }
    CallOutcome.returned evs bomb2.enabled

/-- A backend whose `backtrace_create_state` fails (returns NULL) and
that never finds any address. -/
def nullBackend : Backend where
  create_state := 0
  pcinfo_record := fun _ => none
  pcinfo_miss_status := fun _ => -1
  syminfo_record := fun _ => none

/-- A backend whose state creation succeeds (handle `1`), whose line
table knows address `7` (firing the line callback with non-null
filename `"/a"` and function `"m"` at line 3), and whose symbol table
knows every address (symbol name `"m"`). -/
def hitBackend : Backend where
  create_state := 1
  pcinfo_record := fun a =>
    if a = 7 then
      some { pc := 7, filename := some [47, 97, 0], lineno := 3, function := some [109, 0] }
    else none
  pcinfo_miss_status := fun _ => -1
  syminfo_record := fun a => some { pc := a, symname := some [109, 0], symval := 0, symsize := 0 }

/-! ## Helper lemmas on traces -/

theorem countCreate_append (t u : List Event) :
    countCreate (t ++ u) = countCreate t + countCreate u := by
  simp [countCreate, List.countP_append]

theorem countClosure_append (t u : List Event) :
    countClosure (t ++ u) = countClosure t + countClosure u := by
  simp [countClosure, List.countP_append]

/-! ### Shape lemmas: the value of each operation on each of its branches -/

theorem init_state_cached (b : Backend) (s : Nat) (h : s ≠ 0) :
    init_state b s = (s, []) := by
  simp [init_state, h]

theorem init_state_first (b : Backend) :
    init_state b 0 = (b.create_state, [Event.create_state_call]) := by
  simp [init_state]

theorem pcinfo_cb_null (pc : Nat) (filename : CPtr) (lineno : Int) (function : CPtr)
    (h : filename.isNone || function.isNone) :
    pcinfo_cb pc filename lineno function = (-1, []) := by
  simp [pcinfo_cb, h]

theorem pcinfo_cb_nonnull (pc : Nat) (filename : CPtr) (lineno : Int) (function : CPtr)
    (h : (filename.isNone || function.isNone) = false) :
    pcinfo_cb pc filename lineno function =
      (0, [Event.closure_call (Symbol.Pcinfo pc filename lineno function)]) := by
  simp [pcinfo_cb, h, call]

theorem backtrace_pcinfo_miss (b : Backend) (state addr : Nat)
    (h : b.pcinfo_record addr = none) :
    backtrace_pcinfo b state addr =
      (b.pcinfo_miss_status addr, [Event.pcinfo_call state addr]) := by
  simp [backtrace_pcinfo, h, error_cb]

theorem backtrace_pcinfo_found (b : Backend) (state addr : Nat) (r : PcinfoRecord)
    (h : b.pcinfo_record addr = some r) :
    backtrace_pcinfo b state addr =
      ((pcinfo_cb r.pc r.filename r.lineno r.function).1,
        Event.pcinfo_call state addr :: (pcinfo_cb r.pc r.filename r.lineno r.function).2) := by
  simp [backtrace_pcinfo, h]

theorem backtrace_syminfo_miss (b : Backend) (state addr : Nat)
    (h : b.syminfo_record addr = none) :
    backtrace_syminfo b state addr = [Event.syminfo_call state addr] := by
  simp [backtrace_syminfo, h, error_cb]

theorem backtrace_syminfo_found (b : Backend) (state addr : Nat) (r : SyminfoRecord)
    (h : b.syminfo_record addr = some r) :
    backtrace_syminfo b state addr =
      [Event.syminfo_call state addr, Event.closure_call (Symbol.Syminfo r.pc r.symname)] := by
  simp [backtrace_syminfo, h, syminfo_cb, call]

theorem resolve_null_state (b : Backend) (STATE addr : Nat)
    (h : (init_state b STATE).1 = 0) :
    resolve b STATE addr = ((init_state b STATE).1, (init_state b STATE).2) := by
  unfold resolve
  simp [h]

theorem resolve_line_hit (b : Backend) (STATE addr : Nat)
    (h : (init_state b STATE).1 ≠ 0)
    (h2 : (backtrace_pcinfo b (init_state b STATE).1 addr).1 = 0) :
    resolve b STATE addr =
      ((init_state b STATE).1,
        (init_state b STATE).2 ++ (backtrace_pcinfo b (init_state b STATE).1 addr).2) := by
  unfold resolve
  simp [h, h2]

theorem resolve_fallback (b : Backend) (STATE addr : Nat)
    (h : (init_state b STATE).1 ≠ 0)
    (h2 : (backtrace_pcinfo b (init_state b STATE).1 addr).1 ≠ 0) :
    resolve b STATE addr =
      ((init_state b STATE).1,
        (init_state b STATE).2 ++ (backtrace_pcinfo b (init_state b STATE).1 addr).2 ++
          backtrace_syminfo b (init_state b STATE).1 addr) := by
  unfold resolve
  simp [h, h2]

/-! ### Event counts of the backend-call traces -/

theorem countCreate_backtrace_pcinfo (b : Backend) (state addr : Nat) :
    countCreate (backtrace_pcinfo b state addr).2 = 0 := by
  rcases hrec : b.pcinfo_record addr with _ | r
  · rw [backtrace_pcinfo_miss b state addr hrec]
    simp [countCreate, Event.isCreate]
  · rw [backtrace_pcinfo_found b state addr r hrec]
    rcases hf : r.filename with _ | fs <;> rcases hg : r.function with _ | fo <;>
      simp [pcinfo_cb, call, countCreate, Event.isCreate]

theorem countCreate_backtrace_syminfo (b : Backend) (state addr : Nat) :
    countCreate (backtrace_syminfo b state addr) = 0 := by
  rcases hrec : b.syminfo_record addr with _ | r
  · simp [backtrace_syminfo_miss b state addr hrec, countCreate, Event.isCreate]
  · simp [backtrace_syminfo_found b state addr r hrec, countCreate, Event.isCreate]

/-- A `resolve` call that starts with a cached non-null `STATE` keeps it
and never invokes `backtrace_create_state`. -/
theorem resolve_cached_state (b : Backend) (s addr : Nat) (h : s ≠ 0) :
    (resolve b s addr).1 = s ∧ countCreate (resolve b s addr).2 = 0 := by
  have hi : init_state b s = (s, []) := init_state_cached b s h
  have hs : (init_state b s).1 = s := by rw [hi]
  have hne : (init_state b s).1 ≠ 0 := by rw [hs]; exact h
  by_cases h2 : (backtrace_pcinfo b (init_state b s).1 addr).1 = 0
  · rw [resolve_line_hit b s addr hne h2, hi]
    refine ⟨rfl, ?_⟩
    show countCreate ([] ++ (backtrace_pcinfo b s addr).2) = 0
    rw [List.nil_append]
    exact countCreate_backtrace_pcinfo b s addr
  · rw [resolve_fallback b s addr hne h2, hi]
    refine ⟨rfl, ?_⟩
    show countCreate
      ([] ++ (backtrace_pcinfo b s addr).2 ++ backtrace_syminfo b s addr) = 0
    rw [List.nil_append, countCreate_append, countCreate_backtrace_pcinfo,
      countCreate_backtrace_syminfo]

/-- A `resolve` call that starts with `STATE = 0` invokes
`backtrace_create_state` exactly once and leaves its result in `STATE`. -/
theorem resolve_initial_state (b : Backend) (addr : Nat) :
    (resolve b 0 addr).1 = b.create_state ∧ countCreate (resolve b 0 addr).2 = 1 := by
  have hi : init_state b 0 = (b.create_state, [Event.create_state_call]) :=
    init_state_first b
  have hone : countCreate [Event.create_state_call] = 1 := by
    simp [countCreate, Event.isCreate]
  by_cases h0 : (init_state b 0).1 = 0
  · rw [resolve_null_state b 0 addr h0, hi]
    exact ⟨rfl, hone⟩
  · have hs : (init_state b 0).1 = b.create_state := by rw [hi]
    by_cases h2 : (backtrace_pcinfo b (init_state b 0).1 addr).1 = 0
    · rw [resolve_line_hit b 0 addr h0 h2, hi]
      refine ⟨rfl, ?_⟩
      show countCreate
        ([Event.create_state_call] ++ (backtrace_pcinfo b b.create_state addr).2) = 1
      rw [countCreate_append, countCreate_backtrace_pcinfo, hone]
    · rw [resolve_fallback b 0 addr h0 h2, hi]
      refine ⟨rfl, ?_⟩
      show countCreate
        ([Event.create_state_call] ++ (backtrace_pcinfo b b.create_state addr).2 ++
          backtrace_syminfo b b.create_state addr) = 1
      rw [countCreate_append, countCreate_append, countCreate_backtrace_pcinfo,
        countCreate_backtrace_syminfo, hone]

/-- Once `STATE` holds a non-null handle, a whole sequence of `resolve`
calls keeps it and never invokes `backtrace_create_state` again. -/
theorem resolveSeq_cached_state (b : Backend) (addrs : List Nat) :
    ∀ s : Nat, s ≠ 0 →
      (resolveSeq b s addrs).1 = s ∧ countCreate (resolveSeq b s addrs).2 = 0 := by
  induction addrs with
  | nil => intro s _; simp [resolveSeq, countCreate]
  | cons a rest ih =>
    intro s hs
    have h1 := resolve_cached_state b s a hs
    have h2 := ih s hs
    constructor
    · simp only [resolveSeq, h1.1]
      exact h2.1
    · simp only [resolveSeq, countCreate_append, h1.1, h1.2, h2.2]

theorem countClosure_init_state (b : Backend) (s : Nat) :
    countClosure (init_state b s).2 = 0 := by
  unfold init_state
  split <;> simp [countClosure, Event.isClosure]

theorem countClosure_backtrace_pcinfo_le (b : Backend) (state addr : Nat) :
    countClosure (backtrace_pcinfo b state addr).2 ≤ 1 := by
  rcases hrec : b.pcinfo_record addr with _ | r
  · rw [backtrace_pcinfo_miss b state addr hrec]
    simp [countClosure, Event.isClosure]
  · rw [backtrace_pcinfo_found b state addr r hrec]
    rcases hf : r.filename with _ | fs <;> rcases hg : r.function with _ | fo <;>
      simp [pcinfo_cb, call, countClosure, Event.isClosure]

/-- When `backtrace_pcinfo` reports failure, the user closure was not
invoked during that call: the only way `pcinfo_cb` fires the closure is
its non-null branch, which returns `0`. -/
theorem countClosure_backtrace_pcinfo_of_ne (b : Backend) (state addr : Nat)
    (h : (backtrace_pcinfo b state addr).1 ≠ 0) :
    countClosure (backtrace_pcinfo b state addr).2 = 0 := by
  rcases hrec : b.pcinfo_record addr with _ | r
  · rw [backtrace_pcinfo_miss b state addr hrec]
    simp [countClosure, Event.isClosure]
  · rw [backtrace_pcinfo_found b state addr r hrec] at h ⊢
    rcases hf : r.filename with _ | fs <;> rcases hg : r.function with _ | fo <;>
      rw [hf, hg] at h <;>
      simp [pcinfo_cb, call, countClosure, Event.isClosure] at h ⊢

theorem countClosure_backtrace_syminfo_le (b : Backend) (state addr : Nat) :
    countClosure (backtrace_syminfo b state addr) ≤ 1 := by
  rcases hrec : b.syminfo_record addr with _ | r
  · rw [backtrace_syminfo_miss b state addr hrec]
    simp [countClosure, Event.isClosure]
  · rw [backtrace_syminfo_found b state addr r hrec]
    simp [countClosure, Event.isClosure]

theorem filter_syminfo_init_state (b : Backend) (s : Nat) :
    (init_state b s).2.filter Event.isSyminfoCall = [] := by
  unfold init_state
  split <;> simp [Event.isSyminfoCall]

theorem filter_syminfo_backtrace_pcinfo (b : Backend) (state addr : Nat) :
    (backtrace_pcinfo b state addr).2.filter Event.isSyminfoCall = [] := by
  rcases hrec : b.pcinfo_record addr with _ | r
  · rw [backtrace_pcinfo_miss b state addr hrec]
    simp [Event.isSyminfoCall]
  · rw [backtrace_pcinfo_found b state addr r hrec]
    rcases hf : r.filename with _ | fs <;> rcases hg : r.function with _ | fo <;>
      simp [pcinfo_cb, call, Event.isSyminfoCall]

theorem filter_syminfo_backtrace_syminfo (b : Backend) (state addr : Nat) :
    (backtrace_syminfo b state addr).filter Event.isSyminfoCall =
      [Event.syminfo_call state addr] := by
  rcases hrec : b.syminfo_record addr with _ | r
  · rw [backtrace_syminfo_miss b state addr hrec]
    simp [Event.isSyminfoCall]
  · rw [backtrace_syminfo_found b state addr r hrec]
    simp [Event.isSyminfoCall, Event.isClosure]

theorem no_closure_in_init_state (b : Backend) (s : Nat) (sym : Symbol)
    (h : Event.closure_call sym ∈ (init_state b s).2) : False := by
  unfold init_state at h
  split at h <;> simp at h

/-- Any closure invocation fired from a `backtrace_pcinfo` call carries
a `Pcinfo` symbol whose `filename` and `function` pointers are both
non-null. -/
theorem closure_of_backtrace_pcinfo (b : Backend) (s a : Nat) (sym : Symbol)
    (h : Event.closure_call sym ∈ (backtrace_pcinfo b s a).2) :
    ∃ pc fs ln fo, sym = Symbol.Pcinfo pc (some fs) ln (some fo) := by
  rcases hrec : b.pcinfo_record a with _ | r
  · rw [backtrace_pcinfo_miss b s a hrec] at h
    simp at h
  · rw [backtrace_pcinfo_found b s a r hrec] at h
    rcases hf : r.filename with _ | fs <;> rcases hg : r.function with _ | fo <;>
      simp [pcinfo_cb, call, hf, hg] at h
    exact ⟨r.pc, fs, r.lineno, fo, h⟩

/-- Any closure invocation fired from a `backtrace_syminfo` call
carries a `Syminfo` symbol. -/
theorem closure_of_backtrace_syminfo (b : Backend) (s a : Nat) (sym : Symbol)
    (h : Event.closure_call sym ∈ backtrace_syminfo b s a) :
    ∃ pc sn, sym = Symbol.Syminfo pc sn := by
  rcases hrec : b.syminfo_record a with _ | r
  · rw [backtrace_syminfo_miss b s a hrec] at h
    simp at h
  · rw [backtrace_syminfo_found b s a r hrec] at h
    simp at h
    exact ⟨r.pc, r.symname, h⟩

/-! ## The claims -/

/-- Claim C1, counterexample to the claim as stated.  The claim asserts
that `backtrace_create_state` is called at most once per process
"regardless of whether the first creation attempt succeeded or returned
null".  But `init_state` only caches a non-null `STATE`: with a backend
whose creation primitive returns NULL, two successive `resolve` calls
invoke `backtrace_create_state` twice. -/
theorem create_state_reinvoked_after_null_failure :
    countCreate (resolveSeq nullBackend 0 [7, 7]).2 = 2 := by decide

/-- Claim C1 (amended): provided the first call to
`backtrace_create_state` returns a non-null handle, the primitive is
invoked at most once across any sequence of `resolve` calls starting
from the initial NULL `STATE`; subsequent calls reuse the cached
handle.  (A NULL creation result is not cached, see the
counterexample.) -/
theorem create_state_at_most_once (b : Backend) (addrs : List Nat)
    (h : b.create_state ≠ 0) :
    countCreate (resolveSeq b 0 addrs).2 ≤ 1 := by
  cases addrs with
  | nil => simp [resolveSeq, countCreate]
  | cons a rest =>
    have h1 := resolve_initial_state b a
    have h2 := resolveSeq_cached_state b rest (resolve b 0 a).1 (by rw [h1.1]; exact h)
    simp only [resolveSeq, countCreate_append, h1.2, h2.2]
    omega

/-- Witness for C1 (amended) at a concrete backend and call sequence. -/
theorem create_state_at_most_once_witness :
    hitBackend.create_state ≠ 0 ∧ countCreate (resolveSeq hitBackend 0 [7, 9]).2 ≤ 1 :=
  ⟨by decide, create_state_at_most_once hitBackend [7, 9] (by decide)⟩

/-- Claim C2: in a `resolve` call whose state is non-null, the
`backtrace_syminfo` lookup is invoked — with the same state and the
same lookup address — exactly when the `backtrace_pcinfo` lookup
returned a non-zero status, and never when it returned `0`. -/
theorem syminfo_iff_pcinfo_nonzero (b : Backend) (STATE addr : Nat)
    (h : (init_state b STATE).1 ≠ 0) :
    (resolve b STATE addr).2.filter Event.isSyminfoCall =
      (if (backtrace_pcinfo b (init_state b STATE).1 addr).1 ≠ 0
        then [Event.syminfo_call (init_state b STATE).1 addr]
        else []) := by
  by_cases h2 : (backtrace_pcinfo b (init_state b STATE).1 addr).1 = 0
  · rw [resolve_line_hit b STATE addr h h2, if_neg (by simp [h2])]
    rw [List.filter_append, filter_syminfo_init_state, filter_syminfo_backtrace_pcinfo,
      List.append_nil]
  · rw [resolve_fallback b STATE addr h h2, if_pos h2]
    rw [List.filter_append, List.filter_append, filter_syminfo_init_state,
      filter_syminfo_backtrace_pcinfo, filter_syminfo_backtrace_syminfo]
    simp

/-- Witness for C2 at a concrete backend (line-table hit at address 7,
so the fallback must not fire). -/
theorem syminfo_iff_pcinfo_nonzero_witness :
    (init_state hitBackend 0).1 ≠ 0 ∧
    (resolve hitBackend 0 7).2.filter Event.isSyminfoCall =
      (if (backtrace_pcinfo hitBackend (init_state hitBackend 0).1 7).1 ≠ 0
        then [Event.syminfo_call (init_state hitBackend 0).1 7]
        else []) :=
  ⟨by decide, syminfo_iff_pcinfo_nonzero hitBackend 0 7 (by decide)⟩

/-- Claim C3: every `resolve` call invokes the user closure at most
once, whatever the backend reports for the address.  (A line-table hit
makes `pcinfo_cb` return `0`, so the symbol-table fallback — the only
other closure site — is skipped.) -/
theorem closure_invoked_at_most_once (b : Backend) (STATE addr : Nat) :
    countClosure (resolve b STATE addr).2 ≤ 1 := by
  by_cases h0 : (init_state b STATE).1 = 0
  · rw [resolve_null_state b STATE addr h0, countClosure_init_state]
    exact Nat.zero_le 1
  · by_cases h2 : (backtrace_pcinfo b (init_state b STATE).1 addr).1 = 0
    · rw [resolve_line_hit b STATE addr h0 h2, countClosure_append,
        countClosure_init_state]
      simpa using countClosure_backtrace_pcinfo_le b (init_state b STATE).1 addr
    · rw [resolve_fallback b STATE addr h0 h2, countClosure_append, countClosure_append,
        countClosure_init_state, countClosure_backtrace_pcinfo_of_ne b _ addr h2]
      simpa using countClosure_backtrace_syminfo_le b (init_state b STATE).1 addr

/-- Claim C6: when the state manager yields a NULL state handle,
`resolve` performs no backend lookup and does not invoke the user
closure (and its only possible event is the state-creation attempt
itself); errors are swallowed by the no-op `error_cb`, so nothing is
surfaced. -/
theorem null_state_resolve_is_noop (b : Backend) (STATE addr : Nat)
    (h : (init_state b STATE).1 = 0) :
    countClosure (resolve b STATE addr).2 = 0 ∧
    (resolve b STATE addr).2.countP Event.isPcinfoCall = 0 ∧
    (resolve b STATE addr).2.countP Event.isSyminfoCall = 0 := by
  rw [resolve_null_state b STATE addr h]
  unfold init_state
  split <;>
    simp [countClosure, Event.isClosure, Event.isPcinfoCall, Event.isSyminfoCall]

/-- Witness for C6 at a backend whose state creation fails. -/
theorem null_state_resolve_is_noop_witness :
    (init_state nullBackend 0).1 = 0 ∧
    (countClosure (resolve nullBackend 0 7).2 = 0 ∧
      (resolve nullBackend 0 7).2.countP Event.isPcinfoCall = 0 ∧
      (resolve nullBackend 0 7).2.countP Event.isSyminfoCall = 0) :=
  ⟨by decide, null_state_resolve_is_noop nullBackend 0 7 (by decide)⟩

/-- Claim C4, counterexample to the claim as stated.  The claim asserts
that with a NULL symbol-name pointer the closure is not invoked — but
`syminfo_cb` performs no null check at all: fired with `symname = NULL`
it still wraps the null pointer in `Symbol::Syminfo` and invokes the
closure (once). -/
theorem syminfo_cb_invokes_closure_on_null_name :
    syminfo_cb 5 none 0 0 = [Event.closure_call (Symbol.Syminfo 5 none)] ∧
    countClosure (syminfo_cb 5 none 0 0) = 1 := by decide

/-- Claim C4 (amended): when the symbol-table callback fires, the
bridge always builds the symbol-table-hit `Symbol` wrapping the raw
name pointer — null or not — and invokes the user closure exactly once
with it; the null check is performed later by the `name()` accessor,
which yields `None` for a null pointer and the NUL-delimited name bytes
otherwise. -/
theorem syminfo_cb_always_invokes_closure (pc : Nat) (symname : CPtr)
    (symval symsize : Nat) :
    syminfo_cb pc symname symval symsize =
      [Event.closure_call (Symbol.Syminfo pc symname)] ∧
    (Symbol.Syminfo pc symname).name = symname.map cbytes := by
  refine ⟨rfl, ?_⟩
  cases symname <;> rfl

/-- Claim C5: the line-table callback returns the non-zero status `-1`
to the backend without invoking the closure when the filename or the
function pointer is NULL, and otherwise builds the line-table-hit
`Symbol`, invokes the closure exactly once with it, and returns `0`. -/
theorem pcinfo_cb_miss_on_null_else_hit (pc : Nat) (filename : CPtr) (lineno : Int)
    (function : CPtr) :
    pcinfo_cb pc filename lineno function =
      (if filename = none ∨ function = none then (-1, [])
        else (0, [Event.closure_call (Symbol.Pcinfo pc filename lineno function)])) := by
  unfold pcinfo_cb call
  cases filename <;> cases function <;> simp

/-- Claim C7: in the bridge's `call`, the `Bomb` guard is armed
(`enabled = true`) before the user closure runs, and disarmed only
after the closure returns normally: a panicking closure drops the guard
while still armed and the process aborts instead of unwinding into the
backend's frames, while a normally-returning closure exits `call` with
the guard disarmed. -/
theorem bomb_guard_aborts_on_panic (panics : Bool) (sym : Symbol) :
    callG panics sym =
      (if panics then CallOutcome.aborted
        else CallOutcome.returned [Event.closure_call sym] false) := by
  cases panics <;> rfl

/-- Claim C8: a symbol-table-hit `Symbol` exposes no filename (neither
raw nor path form) and no line number, and its `name()` is the wrapped
NUL-delimited name bytes when the pointer is non-null, `None` when it
is null.  (The outer `some` on `filename_raw`/`filename` is the
model's definedness layer: the call is defined and its value is
`None`.) -/
theorem syminfo_symbol_accessors (pc : Nat) (symname : CPtr) :
    (Symbol.Syminfo pc symname).filename_raw = some none ∧
    (Symbol.Syminfo pc symname).filename = some none ∧
    (Symbol.Syminfo pc symname).lineno = none ∧
    (Symbol.Syminfo pc symname).name = symname.map cbytes := by
  refine ⟨rfl, rfl, rfl, ?_⟩
  cases symname <;> rfl

/-- Claim C9: every line-table-variant `Symbol` that reaches the user
closure during a `resolve` call was built by `pcinfo_cb` after its null
checks, so its `filename` and `function` pointers are non-null; hence
`name()`, `filename_raw()` and `lineno()` all return a value, and the
unguarded `strlen` dereference in `filename_bytes` is never a read
through NULL (`filename_bytes ≠ none` in the definedness model). -/
theorem pcinfo_symbol_pointers_nonnull (b : Backend) (STATE addr pc : Nat)
    (filename : CPtr) (lineno : Int) (function : CPtr)
    (h : Event.closure_call (Symbol.Pcinfo pc filename lineno function)
      ∈ (resolve b STATE addr).2) :
    filename ≠ none ∧ function ≠ none ∧
    (Symbol.Pcinfo pc filename lineno function).filename_bytes ≠ none ∧
    (∃ v, (Symbol.Pcinfo pc filename lineno function).name = some v) ∧
    (∃ v, (Symbol.Pcinfo pc filename lineno function).filename_raw = some (some v)) ∧
    (∃ n, (Symbol.Pcinfo pc filename lineno function).lineno = some n) := by
  have hshape : ∃ pc2 fs ln2 fo,
      Symbol.Pcinfo pc filename lineno function
        = Symbol.Pcinfo pc2 (some fs) ln2 (some fo) := by
    by_cases h0 : (init_state b STATE).1 = 0
    · rw [resolve_null_state b STATE addr h0] at h
      exact absurd h (fun hh => no_closure_in_init_state b STATE _ hh)
    · by_cases h2 : (backtrace_pcinfo b (init_state b STATE).1 addr).1 = 0
      · rw [resolve_line_hit b STATE addr h0 h2] at h
        rcases List.mem_append.mp h with h | h
        · exact absurd h (fun hh => no_closure_in_init_state b STATE _ hh)
        · exact closure_of_backtrace_pcinfo b _ addr _ h
      · rw [resolve_fallback b STATE addr h0 h2] at h
        rcases List.mem_append.mp h with h | h
        · rcases List.mem_append.mp h with h | h
          · exact absurd h (fun hh => no_closure_in_init_state b STATE _ hh)
          · exact closure_of_backtrace_pcinfo b _ addr _ h
        · rcases closure_of_backtrace_syminfo b _ addr _ h with ⟨p2, sn, hs⟩
          exact absurd hs (by simp)
  rcases hshape with ⟨pc2, fs, ln2, fo, heq⟩
  simp only [Symbol.Pcinfo.injEq] at heq
  obtain ⟨-, hf, -, hfo⟩ := heq
  subst hf
  subst hfo
  refine ⟨by simp, by simp, by simp [Symbol.filename_bytes], ?_, ?_, ?_⟩
  · exact ⟨cbytes fo, rfl⟩
  · exact ⟨BytesOrWideString.Bytes (cbytes fs), rfl⟩
  · exact ⟨((lineno % (2 ^ 32 : Int)).toNat), rfl⟩

/-- Witness for C9 at a concrete backend whose line table fires the
callback for address 7. -/
theorem pcinfo_symbol_pointers_nonnull_witness :
    (Event.closure_call (Symbol.Pcinfo 7 (some [47, 97, 0]) 3 (some [109, 0]))
      ∈ (resolve hitBackend 0 7).2) ∧
    ((some [47, 97, 0] : CPtr) ≠ none ∧ (some [109, 0] : CPtr) ≠ none ∧
      (Symbol.Pcinfo 7 (some [47, 97, 0]) 3 (some [109, 0])).filename_bytes ≠ none ∧
      (∃ v, (Symbol.Pcinfo 7 (some [47, 97, 0]) 3 (some [109, 0])).name = some v) ∧
      (∃ v, (Symbol.Pcinfo 7 (some [47, 97, 0]) 3
        (some [109, 0])).filename_raw = some (some v)) ∧
      (∃ n, (Symbol.Pcinfo 7 (some [47, 97, 0]) 3 (some [109, 0])).lineno = some n)) :=
  ⟨by decide, pcinfo_symbol_pointers_nonnull hitBackend 0 7 7 _ 3 _ (by decide)⟩

/-- Claim C10: for both variants, `addr()` returns `None` exactly when
the stored program counter is zero, and the address itself otherwise. -/
theorem addr_none_iff_pc_zero (sym : Symbol) :
    sym.addr = (if sym.pcOf = 0 then none else some sym.pcOf) := by
  cases sym <;> rfl

end Backtrace
